import Mathlib

/-!
Verification of `scripts/send_coos_digest.py`.

The script is a linear pipeline: fetch a community listing page, parse the
rows that carry a time-of-day label ("today's" posts), format them into a
plain-text digest, and send the digest by SMTP.

Shallow embedding conventions:
* The markup is modelled at the level BeautifulSoup exposes it to the
  script: a list of table rows (`tr.find_all`), each row a list of cells
  (`td`/`th`), each cell carrying its stripped text (`get_text(strip=True)`)
  and optionally its first embedded anchor (`c.find("a")`) with the
  anchor's stripped text and optional `href` attribute.  Stripped text
  never ends in whitespace, so Python's `$` anchor in the time pattern
  coincides with end-of-string; digits are modelled as ASCII digits.
* `os.environ` is modelled as a function `String → Option String`
  (`none` = variable unset).  Python truthiness of `os.environ.get`
  results (`None` or `""` are falsy) is `truthyOpt`.
* Fallible steps return `Except`/`Option`; a returned `SmtpSend` value
  stands for the network interaction the mailer would perform, so an
  `Except.error` result means no network I/O was reached.
-/

namespace Coos

/-- Stripped text and optional `href` of the first anchor found in a cell
(`c.find("a")` / `a.get_text(strip=True)` / `a.get("href")`). -/
structure Anchor where
  text : String
  href : Option String
deriving Repr, DecidableEq

/-- One table cell: its stripped text (`c.get_text(strip=True)`) and its
first embedded anchor, when any. -/
structure Cell where
  text : String
  anchor : Option Anchor
deriving Repr, DecidableEq

/-- A table row: the cells found by `tr.find_all(["td", "th"])`. -/
abbrev Row := List Cell

/-- The markup as the parser sees it: the rows found by `soup.find_all("tr")`. -/
abbrev Html := List Row

/-- The record `{"title": ..., "link": ..., "date": ...}` built by
`parse_posts`; `link = none` models Python `None`. -/
structure Post where
  title : String
  link : Option String
  date : String
deriving Repr, DecidableEq

/-- `s.startswith(p)`: the characters of `p` are a prefix of those of `s`. -/
def strStartsWith (s p : String) : Bool :=
  p.toList.isPrefixOf s.toList

/-- ASCII lowercasing of one character, as Python `str.lower` acts on the
ASCII range. -/
def lowerChar (c : Char) : Char :=
  if 65 ≤ c.toNat ∧ c.toNat ≤ 90 then Char.ofNat (c.toNat + 32) else c

/-- `s.lower()` (ASCII model). -/
def strToLower (s : String) : String :=
  ⟨s.toList.map lowerChar⟩

/-- Python whitespace test for the characters `int()` strips. -/
def isSpace (c : Char) : Bool :=
  c = ' ' || c = '\t' || c = '\n' || c = '\r' || c = '\x0b' || c = '\x0c'

/-- Strip leading and trailing whitespace from a character list. -/
def trimList (cs : List Char) : List Char :=
  ((cs.dropWhile isSpace).reverse.dropWhile isSpace).reverse

/-- `sep.join(lines)` of Python. -/
def joinWith (sep : String) : List String → String
  | [] => ""
  | [s] => s
  | s :: rest => s ++ sep ++ joinWith sep rest

/-- `re.compile(r"^\d{1,2}:\d{2}$").match text` on stripped cell text:
one or two digits, a colon, two digits, and nothing else. -/
def timeMatch (s : String) : Bool :=
  match s.toList with
  | [a, ':', c, d] => a.isDigit && c.isDigit && d.isDigit
  | [a, b, ':', c, d] => a.isDigit && b.isDigit && c.isDigit && d.isDigit
  | _ => false

/-- The first loop of `parse_posts`: the text of the first cell whose
stripped text matches the time pattern (`date_cell`), if any. -/
def findDateCell : List Cell → Option String
  | [] => none
  | c :: rest => if timeMatch c.text then some c.text else findDateCell rest

/-- Link resolution in `parse_posts`: `href.startswith("/")` prepends the
fixed origin, `href.startswith("http")` keeps the reference as-is,
anything else yields no link (`link = None`). -/
def resolveHref (href : String) : Option String :=
  if strStartsWith href "/" then some ("https://coos.kr" ++ href)
  else if strStartsWith href "http" then some href
  else none

/-- The second loop of `parse_posts`: scan the cells for the first one
whose first anchor has non-empty stripped text; return that text as the
title together with the resolved link (`a.get("href") or ""` defaults a
missing attribute to the empty string). -/
def findTitleLink : List Cell → Option (String × Option String)
  | [] => none
  | c :: rest =>
    match c.anchor with
    | some a => if a.text ≠ "" then some (a.text, resolveHref (a.href.getD "")) else findTitleLink rest
    | none => findTitleLink rest

/-- Stripped text of the first cell of a row (`cells[0].get_text(strip=True)`),
the fallback title. -/
def headText : Row → String
  | [] => ""
  | c :: _ => c.text

/-- The body of the `for tr in rows` loop of `parse_posts`: `none` when the
row is skipped (`continue`), `some post` when a record is appended. -/
def parseRow (cells : Row) : Option Post :=
  if cells.length < 3 then none
  else
    match findDateCell cells with
    | none => none
    | some date =>
      match findTitleLink cells with
      | some (t, l) => some { title := t, link := l, date := date }
      | none =>
        if headText cells = "" then none
        else some { title := headText cells, link := none, date := date }

/-- `parse_posts`: collect a record per acceptable row, then re-filter by
the time pattern (`todays = [p for p in posts if time_pattern.match(p["date"])]`). -/
def parse_posts (html : Html) : List Post :=
  let posts := html.filterMap parseRow
  posts.filter (fun p => timeMatch p.date)

/-- `parse_posts` with the final `todays` re-filter removed: just the
records appended by the row loop. -/
def parse_posts_unfiltered (html : Html) : List Post :=
  html.filterMap parseRow

/-- Python truthiness of an `os.environ.get(...)` result or of a post's
link field: `None` and `""` are falsy. -/
def truthyOpt : Option String → Bool
  | none => false
  | some s => s ≠ ""

/-- One line of the digest body: `f"{idx}. {title}"`, suffixed with
`f" - {link}"` when `p["link"]` is truthy. -/
def postLine (idx : Nat) (p : Post) : String :=
  if truthyOpt p.link then
    toString idx ++ ". " ++ p.title ++ " - " ++ p.link.getD ""
  else
    toString idx ++ ". " ++ p.title

/-- The `for idx, p in enumerate(posts, 1)` loop of `build_email_body`. -/
def bodyLines : Nat → List Post → List String
  | _, [] => []
  | idx, p :: rest => postLine idx p :: bodyLines (idx + 1) rest

/-- `build_email_body`: the fixed no-posts message on empty input, else
the header line joined with one numbered line per post by `"\n".join`. -/
def build_email_body (posts : List Post) : String :=
  if posts.isEmpty then "오늘 올라온 게시글이 없습니다."
  else joinWith "\n" ("오늘 올라온 게시글:" :: bodyLines 1 posts)

/-- Process environment: `none` models an unset variable. -/
abbrev Env := String → Option String

/-- `os.environ.get(key, default)`. -/
def getenv (σ : Env) (key default : String) : String :=
  (σ key).getD default

/-- `os.environ.get(key, "false").lower() == "true"`. -/
def envFlag (σ : Env) (key : String) : Bool :=
  strToLower (getenv σ key "false") == "true"

/-- Decimal value of an ASCII digit character. -/
def digitVal (c : Char) : Nat := c.toNat - 48

/-- Digits of a Python integer literal after the first digit: further
digits, with single underscores allowed between digits. -/
def pyDigitsGo (acc : Nat) : List Char → Option Nat
  | [] => some acc
  | '_' :: c :: rest =>
    if c.isDigit then pyDigitsGo (acc * 10 + digitVal c) rest else none
  | c :: rest =>
    if c.isDigit then pyDigitsGo (acc * 10 + digitVal c) rest else none

/-- Python `int(s)` on a string (ASCII model): strip surrounding
whitespace, optional sign, then decimal digits with optional single
underscores between digits; `none` models the `ValueError` raised on any
other input. -/
def pyInt (s : String) : Option Int :=
  match trimList s.toList with
  | '+' :: c :: rest =>
    if c.isDigit then (pyDigitsGo (digitVal c) rest).map Int.ofNat else none
  | '-' :: c :: rest =>
    if c.isDigit then (pyDigitsGo (digitVal c) rest).map (fun n => -(Int.ofNat n : Int)) else none
  | c :: rest =>
    if c.isDigit then (pyDigitsGo (digitVal c) rest).map Int.ofNat else none
  | [] => none

/-- What `send_email` would hand to the SMTP session: host and port of the
connection, the credentials used by `login`, and the message fields. -/
structure SmtpSend where
  host : String
  port : Int
  user : String
  password : String
  mailFrom : String
  mailTo : String
  subject : String
  body : String
deriving Repr, DecidableEq

/-- How `send_email` can fail before reaching the network:
`valueError` is the `ValueError` of `int(os.environ.get("SMTP_PORT", "587"))`,
`configError` the `RuntimeError("SMTP_USER, SMTP_PASS, MAIL_TO must be set")`. -/
inductive SendErr where
  | valueError
  | configError
deriving Repr, DecidableEq

/-- `send_email` up to the point where the SMTP session would be opened:
an `Except.error` result is raised before any network I/O, an `Except.ok`
result describes the single network interaction that follows. -/
def send_email (σ : Env) (body : String) : Except SendErr SmtpSend :=
  let host := getenv σ "SMTP_HOST" "smtp.gmail.com"
  match pyInt (getenv σ "SMTP_PORT" "587") with
  | none => .error .valueError
  | some port =>
    let user := σ "SMTP_USER"
    let password := σ "SMTP_PASS"
    let mailFrom := match σ "MAIL_FROM" with
      | some s => s
      | none => user.getD ""
    let mailTo := σ "MAIL_TO"
    if !truthyOpt user || !truthyOpt password || !truthyOpt mailTo then
      .error .configError
    else
      .ok { host := host, port := port, user := user.getD "",
            password := password.getD "", mailFrom := mailFrom,
            mailTo := mailTo.getD "",
            subject := "COOS 커뮤니티 오늘 게시글", body := body }

/-- The three fetch strategies of `fetch_html`. -/
inductive FetchMode where
  | playwright
  | selenium
  | plain
deriving Repr, DecidableEq

/-- Strategy selection in `fetch_html`: the `use_playwright` argument wins,
else the `USE_SELENIUM` environment flag selects Selenium, else the plain
`requests` path. -/
def fetch_mode (usePlaywright : Bool) (σ : Env) : FetchMode :=
  if usePlaywright then .playwright
  else if envFlag σ "USE_SELENIUM" then .selenium
  else .plain

/-- The initial `use_playwright` value computed in `main`: the
`--use-playwright` CLI flag or the `USE_PLAYWRIGHT` environment flag. -/
def use_playwright_init (flag : Bool) (σ : Env) : Bool :=
  flag || envFlag σ "USE_PLAYWRIGHT"

/-- The fetch mode `main`'s first call to `fetch_html` uses. -/
def main_fetch_mode (flag : Bool) (σ : Env) : FetchMode :=
  fetch_mode (use_playwright_init flag σ) σ

/-- Observable outcome of `main`'s fetch/parse phase: the `use_playwright`
argument of each `fetch_html` invocation, in order, and the final post list. -/
structure MainFetch where
  calls : List Bool
  posts : List Post
deriving Repr, DecidableEq

/-- The fetch/parse phase of `main` with the fetcher abstracted as an
oracle from the `use_playwright` argument to the markup it returns:
fetch, parse, and on an empty result from an unforced fetch retry exactly
once with `use_playwright=True`. -/
def main_fetch (flag : Bool) (σ : Env) (fetch : Bool → Html) : MainFetch :=
  let up := use_playwright_init flag σ
  let posts := parse_posts (fetch up)
  if posts.isEmpty && !up then
    { calls := [up, true], posts := parse_posts (fetch true) }
  else
    { calls := [up], posts := posts }

/-- `build_email_body` with the process environment threaded through
explicitly: the source of the function contains no read or write of any
process-wide state, so the embedding returns the state unchanged. -/
def build_email_body_st (σ : Env) (posts : List Post) : String × Env :=
  (build_email_body posts, σ)

/-- All `href` references carried by anchors of the markup, each defaulted
to `""` when the attribute is missing, exactly as `parse_posts` reads them. -/
def hrefsOf (html : Html) : List String :=
  html.flatMap (fun row => row.filterMap (fun c => c.anchor.map (fun a => a.href.getD "")))

/-- Example row from the spec: cells `["12:30", "<a href='/p/42'>Hello</a>", "5"]`. -/
def exRow : Row :=
  [⟨"12:30", none⟩, ⟨"", some ⟨"Hello", some "/p/42"⟩⟩, ⟨"5", none⟩]

/-- Example markup consisting of the single example row. -/
def exHtml : Html := [exRow]

/-- The record `parse_posts` builds from `exRow`. -/
def examplePost : Post := ⟨"Hello", some "https://coos.kr/p/42", "12:30"⟩

/-- An example post without a link. -/
def examplePost2 : Post := ⟨"Note", none, "9:05"⟩

/-- A malformed row: a single cell, fewer than the 3 the parser requires. -/
def shortRow : Row := [⟨"12:30", none⟩]

/-- An environment with every variable unset. -/
def envEmpty : Env := fun _ => none

/-- An environment whose only variable is a non-integer `SMTP_PORT`. -/
def envPortBad : Env := fun k => if k = "SMTP_PORT" then some "abc" else none

/-- An environment whose only variable is `USE_SELENIUM=true`. -/
def envSelenium : Env := fun k => if k = "USE_SELENIUM" then some "true" else none

/-- A fetch oracle returning markup with no rows, whatever the mode. -/
def fetchEmpty : Bool → Html := fun _ => []

/-- The `date_cell` found by the first loop always matches the time pattern. -/
theorem findDateCell_matches {cells : List Cell} {d : String}
    (h : findDateCell cells = some d) : timeMatch d = true := by
  induction cells with
  | nil => simp [findDateCell] at h
  | cons c rest ih =>
    unfold findDateCell at h
    by_cases hc : timeMatch c.text
    · rw [if_pos hc] at h
      cases h
      exact hc
    · rw [if_neg hc] at h
      exact ih h

/-- A row with no time-matching cell yields no `date_cell`. -/
theorem findDateCell_eq_none {cells : List Cell}
    (h : ∀ c ∈ cells, timeMatch c.text = false) : findDateCell cells = none := by
  induction cells with
  | nil => rfl
  | cons c rest ih =>
    unfold findDateCell
    rw [if_neg (by simp [h c (List.mem_cons_self c rest)])]
    exact ih fun c' hc' => h c' (List.mem_cons_of_mem c hc')

/-- Every record the row loop appends carries a time-matching `date` field. -/
theorem parseRow_date {cells : Row} {p : Post}
    (h : parseRow cells = some p) : timeMatch p.date = true := by
  unfold parseRow at h
  by_cases hlen : cells.length < 3
  · rw [if_pos hlen] at h
    cases h
  · rw [if_neg hlen] at h
    cases hd : findDateCell cells with
    | none => simp only [hd] at h; cases h
    | some d =>
      simp only [hd] at h
      cases ht : findTitleLink cells with
      | some tl =>
        simp only [ht] at h
        cases h
        exact findDateCell_matches hd
      | none =>
        simp only [ht] at h
        by_cases hh : headText cells = ""
        · rw [if_pos hh] at h; cases h
        · rw [if_neg hh] at h
          cases h
          exact findDateCell_matches hd

/-- If the anchor scan produced a link, some cell of the row holds an
anchor whose defaulted `href` resolves to exactly that link. -/
theorem findTitleLink_link {cells : List Cell} {t l : String}
    (h : findTitleLink cells = some (t, some l)) :
    ∃ c ∈ cells, ∃ a, c.anchor = some a ∧ resolveHref (a.href.getD "") = some l := by
  induction cells with
  | nil => simp [findTitleLink] at h
  | cons c rest ih =>
    unfold findTitleLink at h
    cases hc : c.anchor with
    | none =>
      simp only [hc] at h
      obtain ⟨c', hm, ha⟩ := ih h
      exact ⟨c', List.mem_cons_of_mem c hm, ha⟩
    | some a =>
      simp only [hc] at h
      by_cases htext : a.text ≠ ""
      · rw [if_pos htext] at h
        simp only [Option.some.injEq, Prod.mk.injEq] at h
        exact ⟨c, List.mem_cons_self c rest, a, hc, h.2⟩
      · rw [if_neg htext] at h
        obtain ⟨c', hm, ha⟩ := ih h
        exact ⟨c', List.mem_cons_of_mem c hm, ha⟩

/-- If an appended record carries a link, the link resolves from the
defaulted `href` of some anchor of the row. -/
theorem parseRow_link {cells : Row} {p : Post} {l : String}
    (hp : parseRow cells = some p) (hl : p.link = some l) :
    ∃ c ∈ cells, ∃ a, c.anchor = some a ∧ resolveHref (a.href.getD "") = some l := by
  unfold parseRow at hp
  by_cases hlen : cells.length < 3
  · rw [if_pos hlen] at hp; cases hp
  · rw [if_neg hlen] at hp
    cases hd : findDateCell cells with
    | none => simp only [hd] at hp; cases hp
    | some d =>
      simp only [hd] at hp
      cases ht : findTitleLink cells with
      | some tl =>
        obtain ⟨t, lk⟩ := tl
        simp only [ht] at hp
        cases hp
        have hlk : lk = some l := hl
        rw [hlk] at ht
        exact findTitleLink_link ht
      | none =>
        simp only [ht] at hp
        by_cases hh : headText cells = ""
        · rw [if_pos hh] at hp; cases hp
        · rw [if_neg hh] at hp
          cases hp
          cases hl

/-- Case analysis of the link resolution of `parse_posts`. -/
theorem resolveHref_shape {href l : String} (hr : resolveHref href = some l) :
    (strStartsWith href "/" = true ∧ l = "https://coos.kr" ++ href) ∨
    (strStartsWith href "/" = false ∧ strStartsWith href "http" = true ∧ l = href) := by
  unfold resolveHref at hr
  by_cases h1 : strStartsWith href "/"
  · rw [if_pos h1] at hr
    cases hr
    exact Or.inl ⟨h1, rfl⟩
  · rw [if_neg h1] at hr
    by_cases h2 : strStartsWith href "http"
    · rw [if_pos h2] at hr
      cases hr
      exact Or.inr ⟨by simpa using h1, h2, rfl⟩
    · rw [if_neg h2] at hr
      cases hr

/-- An anchor `href` of any cell of any row occurs in `hrefsOf`. -/
theorem mem_hrefsOf {html : Html} {row : Row} {c : Cell} {a : Anchor}
    (hrow : row ∈ html) (hc : c ∈ row) (ha : c.anchor = some a) :
    (a.href.getD "") ∈ hrefsOf html := by
  unfold hrefsOf
  refine List.mem_flatMap.mpr ⟨row, hrow, ?_⟩
  refine List.mem_filterMap.mpr ⟨c, hc, ?_⟩
  rw [ha]
  rfl

/-- A row failing any of the row-acceptance checks is skipped by the loop. -/
theorem parseRow_malformed {row : Row}
    (h : row.length < 3 ∨ (∀ c ∈ row, timeMatch c.text = false) ∨
         (findTitleLink row = none ∧ headText row = "")) :
    parseRow row = none := by
  unfold parseRow
  by_cases hlen : row.length < 3
  · rw [if_pos hlen]
  · rw [if_neg hlen]
    rcases h with h | h | h
    · exact absurd h hlen
    · rw [findDateCell_eq_none h]
    · cases hd : findDateCell row with
      | none => rfl
      | some d =>
        simp only [h.1, h.2, if_pos]

/-- `bodyLines` enumerates the posts against the index list `k, k+1, ...`,
each line being the index, a dot, the title, and the optional link suffix. -/
theorem bodyLines_eq (k : Nat) (posts : List Post) :
    bodyLines k posts =
      List.zipWith
        (fun i p => toString i ++ ". " ++ p.title ++
          (if truthyOpt p.link then " - " ++ p.link.getD "" else ""))
        (List.range' k posts.length) posts := by
  induction posts generalizing k with
  | nil => rfl
  | cons p rest ih =>
    rw [List.length_cons, List.range'_succ, List.zipWith_cons_cons]
    unfold bodyLines
    rw [ih (k + 1)]
    congr 1
    unfold postLine
    by_cases h : truthyOpt p.link
    · rw [if_pos h, if_pos h, String.append_assoc]
    · rw [if_neg h, if_neg h, String.append_empty]

/-- C1: every Post in the sequence returned by `parse_posts` has a
`date` field that matches the time-of-day pattern (one or two digits, a
colon, two digits) exactly; no Post with a non-matching label is included. -/
theorem C1_posts_time_label (html : Html) (p : Post)
    (hp : p ∈ parse_posts html) : timeMatch p.date = true := by
  simp only [parse_posts, List.mem_filter] at hp
  exact hp.2

/-- Witness for C1 at the spec's example markup. -/
theorem C1_posts_time_label_witness : timeMatch examplePost.date = true :=
  C1_posts_time_label exHtml examplePost (by decide)

/-- C2: when the initial fetch mode is unforced and the first parse is
empty, `main` invokes the fetch path exactly one more time with Playwright
forced, re-parses, and uses that result as final; there is no third fetch
attempt even if the second parse is also empty. -/
theorem C2_single_refetch (flag : Bool) (σ : Env) (fetch : Bool → Html)
    (h1 : use_playwright_init flag σ = false)
    (h2 : parse_posts (fetch false) = []) :
    (main_fetch flag σ fetch).calls = [false, true] ∧
    (main_fetch flag σ fetch).posts = parse_posts (fetch true) ∧
    fetch_mode true σ = FetchMode.playwright := by
  simp [main_fetch, h1, h2, fetch_mode]

/-- Witness for C2: empty environment, fetcher returning empty markup. -/
theorem C2_single_refetch_witness :
    (main_fetch false envEmpty fetchEmpty).calls = [false, true] ∧
    (main_fetch false envEmpty fetchEmpty).posts = parse_posts (fetchEmpty true) ∧
    fetch_mode true envEmpty = FetchMode.playwright :=
  C2_single_refetch false envEmpty fetchEmpty rfl rfl

/-- C3: `build_email_body` returns the fixed no-posts string on empty
input; on non-empty input it returns the header line followed by one line
per Post in input order, numbered exactly 1..N with no gaps, each line
being the index, a dot and the title, suffixed with the link exactly when
the Post has a (Python-truthy) link. -/
theorem C3_body_format (posts : List Post) :
    (posts = [] → build_email_body posts = "오늘 올라온 게시글이 없습니다.") ∧
    (posts ≠ [] → build_email_body posts =
      joinWith "\n" ("오늘 올라온 게시글:" ::
        List.zipWith
          (fun i p => toString i ++ ". " ++ p.title ++
            (if truthyOpt p.link then " - " ++ p.link.getD "" else ""))
          (List.range' 1 posts.length) posts)) := by
  constructor
  · intro h
    subst h
    rfl
  · intro h
    unfold build_email_body
    rw [if_neg (by simp [List.isEmpty_iff, h]), bodyLines_eq]

/-- Witness for C3 on the empty list and a two-post list. -/
theorem C3_body_format_witness :
    build_email_body [] = "오늘 올라온 게시글이 없습니다." ∧
    build_email_body [examplePost, examplePost2] =
      "오늘 올라온 게시글:\n1. Hello - https://coos.kr/p/42\n2. Note" := by
  constructor
  · exact (C3_body_format []).1 rfl
  · rw [(C3_body_format [examplePost, examplePost2]).2 (by simp)]
    decide

/-- C4: every link of a Post produced by `parse_posts` comes from an
`href` present in the markup and is either that site-relative reference
prefixed with the fixed origin, or that http-prefixed reference as-is. -/
theorem C4_link_shape (html : Html) (p : Post) (l : String)
    (hp : p ∈ parse_posts html) (hl : p.link = some l) :
    ∃ href ∈ hrefsOf html,
      (strStartsWith href "/" = true ∧ l = "https://coos.kr" ++ href) ∨
      (strStartsWith href "/" = false ∧ strStartsWith href "http" = true ∧ l = href) := by
  simp only [parse_posts, List.mem_filter] at hp
  obtain ⟨row, hrow, hpr⟩ := List.mem_filterMap.mp hp.1
  obtain ⟨c, hc, a, ha, hres⟩ := parseRow_link hpr hl
  exact ⟨a.href.getD "", mem_hrefsOf hrow hc ha, resolveHref_shape hres⟩

/-- Witness for C4 at the spec's example markup. -/
theorem C4_link_shape_witness :
    ∃ href ∈ hrefsOf exHtml,
      (strStartsWith href "/" = true ∧ "https://coos.kr/p/42" = "https://coos.kr" ++ href) ∨
      (strStartsWith href "/" = false ∧ strStartsWith href "http" = true ∧
        "https://coos.kr/p/42" = href) :=
  C4_link_shape exHtml examplePost "https://coos.kr/p/42" (by decide) rfl

/-- C7: malformed rows are silently skipped: a row with fewer than 3
cells, with no cell matching the time pattern, or with no usable title
(no anchor title and an empty first cell) contributes nothing to the
result, which degrades to fewer rows rather than an error. -/
theorem C7_malformed_rows_skipped (pre suf : Html) (row : Row)
    (h : row.length < 3 ∨ (∀ c ∈ row, timeMatch c.text = false) ∨
         (findTitleLink row = none ∧ headText row = "")) :
    parse_posts (pre ++ row :: suf) = parse_posts (pre ++ suf) := by
  have hr : parseRow row = none := parseRow_malformed h
  simp only [parse_posts, List.filterMap_append, List.filterMap_cons_none hr]

/-- Witness for C7: a one-cell row is dropped from between two copies of
the example markup. -/
theorem C7_malformed_rows_skipped_witness :
    parse_posts (exHtml ++ shortRow :: exHtml) = parse_posts (exHtml ++ exHtml) :=
  C7_malformed_rows_skipped exHtml exHtml shortRow (Or.inl (by decide))

/-- C8: `build_email_body` is pure and deterministic: its state-threaded
embedding gives the same output under any two process states and returns
the state unchanged. -/
theorem C8_formatter_pure (σ τ : Env) (posts : List Post) :
    (build_email_body_st σ posts).1 = (build_email_body_st τ posts).1 ∧
    (build_email_body_st σ posts).2 = σ :=
  ⟨rfl, rfl⟩

/-- C9: the final `todays` re-filter of `parse_posts` is the identity:
the returned list equals the list of appended records, so `parse_posts`
is equivalent to the same function with the filter removed. -/
theorem C9_refilter_identity (html : Html) :
    parse_posts html = parse_posts_unfiltered html := by
  simp only [parse_posts, parse_posts_unfiltered]
  apply List.filter_eq_self.mpr
  intro p hp
  obtain ⟨row, _, hrow⟩ := List.mem_filterMap.mp hp
  exact parseRow_date hrow

/-- C5 counterexample: with `SMTP_PORT` set to a non-integer string and
all of `SMTP_USER`, `SMTP_PASS`, `MAIL_TO` unset, `send_email` does not
fail with the configuration error (it fails with the conversion error),
so the claim as stated is false at this input. -/
theorem C5_cex :
    truthyOpt (envPortBad "SMTP_USER") = false ∧
    truthyOpt (envPortBad "SMTP_PASS") = false ∧
    truthyOpt (envPortBad "MAIL_TO") = false ∧
    send_email envPortBad "digest" ≠ Except.error SendErr.configError := by
  refine ⟨rfl, rfl, rfl, ?_⟩
  intro hcontra
  have he : send_email envPortBad "digest" = Except.error SendErr.valueError := rfl
  rw [he] at hcontra
  simp at hcontra

/-- C5 amended: if any of `SMTP_USER`, `SMTP_PASS`, `MAIL_TO` is missing
(unset or empty) and the `SMTP_PORT` value (default `"587"`) converts to
an integer, `send_email` fails with the configuration error before any
network I/O is attempted (no `SmtpSend` action is produced). -/
theorem C5_config_error (σ : Env) (body : String) (n : Int)
    (hport : pyInt (getenv σ "SMTP_PORT" "587") = some n)
    (hmiss : truthyOpt (σ "SMTP_USER") = false ∨ truthyOpt (σ "SMTP_PASS") = false ∨
             truthyOpt (σ "MAIL_TO") = false) :
    send_email σ body = Except.error SendErr.configError := by
  unfold send_email
  simp only [hport]
  rcases hmiss with h | h | h <;> simp [h]

/-- Witness for the amended C5: everything unset, default port `"587"`. -/
theorem C5_config_error_witness :
    send_email envEmpty "digest" = Except.error SendErr.configError :=
  C5_config_error envEmpty "digest" 587 (by decide) (Or.inl rfl)

/-- C6: fetch-mode selection precedence: the force flag or the
`USE_PLAYWRIGHT` environment flag selects Playwright over everything
else; otherwise `USE_SELENIUM` selects Selenium; otherwise the plain
requests path is used. -/
theorem C6_mode_precedence (flag : Bool) (σ : Env) :
    ((flag = true ∨ envFlag σ "USE_PLAYWRIGHT" = true) →
      main_fetch_mode flag σ = FetchMode.playwright) ∧
    (flag = false → envFlag σ "USE_PLAYWRIGHT" = false → envFlag σ "USE_SELENIUM" = true →
      main_fetch_mode flag σ = FetchMode.selenium) ∧
    (flag = false → envFlag σ "USE_PLAYWRIGHT" = false → envFlag σ "USE_SELENIUM" = false →
      main_fetch_mode flag σ = FetchMode.plain) := by
  refine ⟨?_, ?_, ?_⟩
  · rintro (h | h) <;> simp [main_fetch_mode, use_playwright_init, fetch_mode, h]
  · intro h1 h2 h3
    simp [main_fetch_mode, use_playwright_init, fetch_mode, h1, h2, h3]
  · intro h1 h2 h3
    simp [main_fetch_mode, use_playwright_init, fetch_mode, h1, h2, h3]

/-- Witness for C6: the flag beats `USE_SELENIUM=true`; without the flag
`USE_SELENIUM=true` selects Selenium; an empty environment selects plain. -/
theorem C6_mode_precedence_witness :
    main_fetch_mode true envSelenium = FetchMode.playwright ∧
    main_fetch_mode false envSelenium = FetchMode.selenium ∧
    main_fetch_mode false envEmpty = FetchMode.plain :=
  ⟨(C6_mode_precedence true envSelenium).1 (Or.inl rfl),
   (C6_mode_precedence false envSelenium).2.1 rfl rfl rfl,
   (C6_mode_precedence false envEmpty).2.2 rfl rfl rfl⟩

/-- C10: if `SMTP_PORT` is set to a string that does not convert to an
integer, `send_email` fails with the conversion error before the
missing-credential check and before any network I/O; the configuration
error is never produced there, even if the credentials are also missing. -/
theorem C10_port_error_first (σ : Env) (body : String) (s : String)
    (hset : σ "SMTP_PORT" = some s) (hbad : pyInt s = none) :
    send_email σ body = Except.error SendErr.valueError ∧
    send_email σ body ≠ Except.error SendErr.configError := by
  have hg : getenv σ "SMTP_PORT" "587" = s := by simp [getenv, hset]
  have he : send_email σ body = Except.error SendErr.valueError := by
    unfold send_email
    simp only [hg, hbad]
  refine ⟨he, ?_⟩
  rw [he]
  simp

/-- Witness for C10: non-integer port with all credentials missing. -/
theorem C10_port_error_first_witness :
    send_email envPortBad "digest" = Except.error SendErr.valueError ∧
    send_email envPortBad "digest" ≠ Except.error SendErr.configError :=
  C10_port_error_first envPortBad "digest" "abc" rfl (by decide)

end Coos
